import Mathlib

/-
  Verification of `torch_geometric/data/lightning/datamodule.py`.

  The file shallowly embeds the module's data model and operations:
  Python keyword-argument dictionaries become association lists with
  Python-dict update semantics, fallible constructors and lifecycle hooks
  return `Except PyError`, loader objects become records carrying their
  configuration together with an allocation id (fresh per construction),
  and warnings become lists of string tags.
-/

/-- A Python value as it occurs in the module's kwargs dictionaries:
`None`, booleans, integers, strings, or an opaque object reference
(tensors, samplers, and other collaborator objects are opaque here). -/
inductive PyVal where
  | none
  | bool (b : Bool)
  | int (n : Int)
  | str (s : String)
  | obj (id : Nat)
deriving DecidableEq, Inhabited

/-- The exception kinds raised by the module. -/
inductive PyError where
  | moduleNotFoundError
  | notImplementedError
  | valueError
  | assertionError
  | attributeError
deriving DecidableEq

/-- Python truthiness of a value, as used by `if kwargs.get('pin_memory', False):`. -/
def PyVal.truthy : PyVal → Bool
  | .none => false
  | .bool b => b
  | .int n => decide (n ≠ 0)
  | .str s => decide (s ≠ "")
  | .obj _ => true

/-- The comparison `v > 0` on a kwargs value, as used by
`kwargs.get('num_workers', 0) > 0` (booleans compare as 0/1 in Python). -/
def PyVal.gt0 : PyVal → Bool
  | .int n => decide (0 < n)
  | .bool b => b
  | _ => false

/-- Lookup in a kwargs dictionary (`kwargs[k]` / `kwargs.get(k)`): the value at
the first matching key. -/
def dictGet : List (String × PyVal) → String → Option PyVal
  | [], _ => Option.none
  | p :: t, k => if p.1 = k then some p.2 else dictGet t k

/-- Lookup with default (`kwargs.get(k, d)`). -/
def dictGetD (d : List (String × PyVal)) (k : String) (v : PyVal) : PyVal :=
  (dictGet d k).getD v

/-- Key-membership test (`k in kwargs`). -/
def dictHasKey (d : List (String × PyVal)) (k : String) : Bool :=
  (dictGet d k).isSome

/-- Deletion (`del kwargs[k]` / `kwargs.pop(k, None)`): removes the key. -/
def dictErase : List (String × PyVal) → String → List (String × PyVal)
  | [], _ => []
  | p :: t, k => if p.1 = k then dictErase t k else p :: dictErase t k

/-- Assignment (`kwargs[k] = v`): updates the first occurrence in place,
or appends when the key is absent. -/
def dictSet : List (String × PyVal) → String → PyVal → List (String × PyVal)
  | [], k, v => [(k, v)]
  | p :: t, k, v => if p.1 = k then (k, v) :: t else p :: dictSet t k v

theorem dictGet_erase_self (d : List (String × PyVal)) (k : String) :
    dictGet (dictErase d k) k = Option.none := by
  induction d with
  | nil => rfl
  | cons p t ih =>
    by_cases h : p.1 = k
    · simpa [dictErase, h] using ih
    · simp [dictErase, dictGet, h, ih]

theorem dictGet_erase_ne (d : List (String × PyVal)) (k k' : String) (h : k' ≠ k) :
    dictGet (dictErase d k) k' = dictGet d k' := by
  induction d with
  | nil => rfl
  | cons p t ih =>
    by_cases hp : p.1 = k
    · simp only [dictErase, if_pos hp, ih, dictGet]
      rw [if_neg (fun hc => h (by rw [← hc, hp]))]
    · simp only [dictErase, if_neg hp, dictGet]
      by_cases hp' : p.1 = k'
      · rw [if_pos hp', if_pos hp']
      · rw [if_neg hp', if_neg hp', ih]

theorem dictGet_set_self (d : List (String × PyVal)) (k : String) (v : PyVal) :
    dictGet (dictSet d k v) k = some v := by
  induction d with
  | nil => simp [dictSet, dictGet]
  | cons p t ih =>
    by_cases h : p.1 = k
    · simp [dictSet, dictGet, h]
    · simp [dictSet, dictGet, h, ih]

theorem dictGet_set_ne (d : List (String × PyVal)) (k k' : String) (v : PyVal) (h : k' ≠ k) :
    dictGet (dictSet d k v) k' = dictGet d k' := by
  induction d with
  | nil =>
    simp only [dictSet, dictGet]
    rw [if_neg (fun hc => h hc.symm)]
  | cons p t ih =>
    by_cases hp : p.1 = k
    · simp only [dictSet, if_pos hp, dictGet]
      rw [if_neg (fun hc => h hc.symm), if_neg (fun hc => h (by rw [← hc, hp]))]
    · simp only [dictSet, if_neg hp, dictGet]
      by_cases hp' : p.1 = k'
      · rw [if_pos hp', if_pos hp']
      · rw [if_neg hp', if_neg hp', ih]

theorem dictGet_eraseList_notMem (ps : List String) (d : List (String × PyVal)) (k : String)
    (h : k ∉ ps) : dictGet (ps.foldl (fun a p => dictErase a p) d) k = dictGet d k := by
  induction ps generalizing d with
  | nil => rfl
  | cons q t ih =>
    have hq : k ≠ q := fun hc => h (by simp [hc])
    have ht : k ∉ t := fun hc => h (by simp [hc])
    simp only [List.foldl_cons]
    rw [ih _ ht, dictGet_erase_ne _ _ _ hq]

/-- A graph container passed as `data`: either a homogeneous `Data` object
(a flat attribute store) or a heterogeneous `HeteroData` object (per
node-type attribute stores). -/
inductive GraphData where
  | homo (attrs : List (String × PyVal))
  | hetero (stores : List (String × List (String × PyVal)))
deriving DecidableEq, Inhabited

/-- Modelled from the spec: the containers `Data` / `HeteroData` live in
`torch_geometric.data`, outside this file's source; per the claim, the
membership test `attr in data` holds when the attribute is present — on a
`HeteroData`, when at least one type carries it. -/
def GraphData.containsAttr : GraphData → String → Bool
  | .homo attrs, name => dictHasKey attrs name
  | .hetero stores, name => stores.any (fun s => dictHasKey s.2 name)

/-- Modelled from the spec: attribute read `data[attr_name]` on a
homogeneous `Data` object. -/
def GraphData.getAttr : GraphData → String → Option PyVal
  | .homo attrs, name => dictGet attrs name
  | .hetero _, _ => Option.none

/-- Modelled from the spec: `HeteroData.collect(attr_name)` returns the
mapping from each type carrying the attribute to its value. -/
def GraphData.collect : GraphData → String → List (String × PyVal)
  | .homo _, _ => []
  | .hetero stores, name =>
      stores.filterMap (fun s => (dictGet s.2 name).map (fun v => (s.1, v)))

/-- A resolved input-nodes specification: a plain value (homogeneous data)
or a `(node_type, value)` pair (heterogeneous data). -/
inductive NodeInput where
  | plain (v : PyVal)
  | typed (t : String) (v : PyVal)
deriving DecidableEq

/-- The attribute-name selection of `infer_input_nodes` (source lines
696-703): `{split}_mask` when present, else `{split}_idx`, else
`{split}_index`, else `None`. -/
def infer_attr_name (data : GraphData) (split : String) : Option String :=
  if data.containsAttr (split ++ "_mask") then some (split ++ "_mask")
  else if data.containsAttr (split ++ "_idx") then some (split ++ "_idx")
  else if data.containsAttr (split ++ "_index") then some (split ++ "_index")
  else Option.none

/-- `infer_input_nodes(data, split)` continued (source lines 705-717). -/
def infer_input_nodes (data : GraphData) (split : String) :
    Except PyError (Option NodeInput) :=
  match infer_attr_name data split with
  | Option.none => .ok Option.none
  | some name =>
    match data with
    | .homo attrs => .ok ((dictGet attrs name).map NodeInput.plain)
    | .hetero stores =>
      let d := (GraphData.hetero stores).collect name
      if d.length ≠ 1 then .error .valueError
      else .ok (d.head?.map (fun p => NodeInput.typed p.1 p.2))

/-- The per-split resolution in `LightningNodeData.__init__` (lines
278-290): a user-supplied value is kept, otherwise it is inferred. -/
def resolveInput (given : Option NodeInput) (data : GraphData) (split : String) :
    Except PyError (Option NodeInput) :=
  match given with
  | some v => .ok (some v)
  | Option.none => infer_input_nodes data split

/-- Validation-split resolution (lines 281-284): infer for `val`, and when
that yields nothing, fall back to `valid`. -/
def resolveValInput (given : Option NodeInput) (data : GraphData) :
    Except PyError (Option NodeInput) :=
  match given with
  | some v => .ok (some v)
  | Option.none =>
    match infer_input_nodes data "val" with
    | .error e => .error e
    | .ok (some v) => .ok (some v)
    | .ok Option.none => infer_input_nodes data "valid"

/-- A `pytorch_lightning` distributed-training strategy, as far as the
`isinstance` checks in `prepare_data` observe it. -/
inductive Strategy where
  | singleDevice
  | ddpSpawn
  | other (name : String)
deriving DecidableEq

/-- The `isinstance(strategy, (SingleDeviceStrategy, DDPSpawnStrategy))`
test of `LightningDataModule.prepare_data`. -/
def strategySupported : Strategy → Bool
  | .singleDevice => true
  | .ddpSpawn => true
  | .other _ => false

/-- The attached trainer, as far as the module observes it: its strategy
and its device count (`trainer.num_devices`; on PyTorch Lightning < 1.6
the same number is recovered from `num_processes`/`num_gpus`). -/
structure Trainer where
  num_devices : Nat
  strategy : Strategy
deriving DecidableEq

/-- `LightningDataModule.prepare_data` (lines 56-78): raises
`NotImplementedError` unless the trainer's strategy is a
`SingleDeviceStrategy` or a `DDPSpawnStrategy`; otherwise does nothing. -/
def LightningDataModule.prepareOutcome (t : Trainer) : Except PyError Unit :=
  if strategySupported t.strategy then .ok () else .error .notImplementedError

/-- The kwargs bookkeeping of `LightningDataModule.__init__` (lines 42-54):
drop `shuffle` (with a warning when present), default `pin_memory` to
`True`, default `persistent_workers` to `num_workers > 0`. Returns the
stored kwargs and the warning tags, in emission order. -/
def LightningDataModule.initCore (kwargs : List (String × PyVal)) :
    List (String × PyVal) × List String :=
  let ws : List String := if dictHasKey kwargs "shuffle" then ["shuffle-ignored"] else []
  let kwargs := dictErase kwargs "shuffle"
  let kwargs :=
    if dictHasKey kwargs "pin_memory" then kwargs
    else dictSet kwargs "pin_memory" (PyVal.bool true)
  let kwargs :=
    if dictHasKey kwargs "persistent_workers" then kwargs
    else dictSet kwargs "persistent_workers"
      (PyVal.bool (dictGetD kwargs "num_workers" (PyVal.int 0)).gt0)
  (kwargs, ws)

/-- The state stored by `LightningDataModule.__init__`: the merged kwargs,
and whether the `val_dataloader` / `test_dataloader` attributes were kept
(they are overwritten with `None` when the split is absent). -/
structure BaseModule where
  kwargs : List (String × PyVal)
  has_val : Bool
  has_test : Bool
deriving DecidableEq, Inhabited

/-- `LightningDataModule.__init__` (lines 28-54): raises
`ModuleNotFoundError` when `pytorch_lightning` is not importable, before
any configuration is stored; otherwise stores the merged kwargs. -/
def LightningDataModule.init (plAvailable : Bool) (has_val has_test : Bool)
    (kwargs : List (String × PyVal)) : Except PyError (BaseModule × List String) :=
  if plAvailable then
    let core := LightningDataModule.initCore kwargs
    .ok ({ kwargs := core.1, has_val := has_val, has_test := has_test }, core.2)
  else .error .moduleNotFoundError

/-- A user-supplied `Dataset` object: opaque except for whether it is a
`torch.utils.data.IterableDataset` (checked by
`LightningDataset.train_dataloader`). -/
structure PyDataset where
  oid : Nat
  iterable : Bool
deriving DecidableEq, Inhabited

/-- A constructed loader object. `oid` is the allocation id: every loader
construction returns a fresh one, so two loaders are the same Python
object exactly when their `oid`s agree. The remaining fields record the
constructor arguments: which loader class was instantiated, the dataset or
graph it iterates, the sampler and per-split inputs it was given, and its
keyword arguments. -/
structure Loader where
  oid : Nat
  kind : String
  dataset : Option PyDataset := Option.none
  dataRef : Option GraphData := Option.none
  node_sampler : Option PyVal := Option.none
  input_nodes : Option NodeInput := Option.none
  input_time : Option PyVal := Option.none
  input_id : Option PyVal := Option.none
  edge_label_index : Option PyVal := Option.none
  edge_label : Option PyVal := Option.none
  edge_label_time : Option PyVal := Option.none
  kwargs : List (String × PyVal) := []
deriving DecidableEq, Inhabited

/-- The configuration of a loader: every field except its object identity. -/
def Loader.config (l : Loader) : Loader := { l with oid := 0 }

/-- The state stored by `LightningDataset.__init__` (lines 123-142). -/
structure LightningDataset where
  kwargs : List (String × PyVal)
  has_val : Bool
  has_test : Bool
  train_dataset : PyDataset
  val_dataset : Option PyDataset
  test_dataset : Option PyDataset
deriving DecidableEq, Inhabited

/-- `LightningDataset.__init__` (lines 123-142): delegates to the base
`__init__` with `has_val`/`has_test` derived from the optional datasets
and with `batch_size`/`num_workers` merged into the kwargs, then stores
the three datasets. -/
def LightningDataset.init (plAvailable : Bool) (train_dataset : PyDataset)
    (val_dataset test_dataset : Option PyDataset) (batch_size num_workers : Int)
    (kwargs : List (String × PyVal)) :
    Except PyError (LightningDataset × List String) :=
  match LightningDataModule.init plAvailable val_dataset.isSome test_dataset.isSome
      (("batch_size", PyVal.int batch_size) :: ("num_workers", PyVal.int num_workers) :: kwargs) with
  | .error e => .error e
  | .ok (base, ws) =>
    .ok ({ kwargs := base.kwargs, has_val := base.has_val, has_test := base.has_test,
           train_dataset := train_dataset, val_dataset := val_dataset,
           test_dataset := test_dataset }, ws)

/-- `LightningDataset.dataloader` (lines 144-145): constructs a fresh
`DataLoader(dataset, **kwargs)`. `alloc` is the allocation counter. -/
def LightningDataset.dataloader (dataset : Option PyDataset)
    (kwargs : List (String × PyVal)) (alloc : Nat) : Loader × Nat :=
  ({ oid := alloc, kind := "DataLoader", dataset := dataset, kwargs := kwargs }, alloc + 1)

/-- `LightningDataset.train_dataloader` (lines 147-155): shuffles unless the
training dataset is iterable-style or a (batch-)sampler was configured;
passes `self.kwargs` through unchanged. Returns the loader, the module
as the call leaves it, and the allocation counter. -/
def LightningDataset.train_dataloader (m : LightningDataset) (alloc : Nat) :
    Loader × LightningDataset × Nat :=
  let sh : Bool := !m.train_dataset.iterable
      && decide (dictGetD m.kwargs "sampler" PyVal.none = PyVal.none)
      && decide (dictGetD m.kwargs "batch_sampler" PyVal.none = PyVal.none)
  let r := LightningDataset.dataloader (some m.train_dataset)
      (("shuffle", PyVal.bool sh) :: m.kwargs) alloc
  (r.1, m, r.2)

/-- `LightningDataset.val_dataloader` (lines 157-163): pops `sampler` and
`batch_sampler` from a copy of `self.kwargs` and never shuffles. -/
def LightningDataset.val_dataloader (m : LightningDataset) (alloc : Nat) :
    Loader × LightningDataset × Nat :=
  let kw := dictErase (dictErase m.kwargs "sampler") "batch_sampler"
  let r := LightningDataset.dataloader m.val_dataset (("shuffle", PyVal.bool false) :: kw) alloc
  (r.1, m, r.2)

/-- `LightningDataset.test_dataloader` (lines 165-171). -/
def LightningDataset.test_dataloader (m : LightningDataset) (alloc : Nat) :
    Loader × LightningDataset × Nat :=
  let kw := dictErase (dictErase m.kwargs "sampler") "batch_sampler"
  let r := LightningDataset.dataloader m.test_dataset (("shuffle", PyVal.bool false) :: kw) alloc
  (r.1, m, r.2)

/-- `LightningDataset.prepare_data` is inherited from the base class
unchanged; the method mutates nothing, so it returns the module as is. -/
def LightningDataset.prepare_data (m : LightningDataset) (t : Trainer) :
    Except PyError LightningDataset :=
  (LightningDataModule.prepareOutcome t).map (fun _ => m)

/-- The state stored by `LightningNodeData.__init__` (lines 256-358).
The absent `neighbor_sampler` attribute (loader `custom` handed no
sampler, or loader `full`) is modelled as `none`. -/
structure LightningNodeData where
  kwargs : List (String × PyVal)
  has_val : Bool
  has_test : Bool
  data : GraphData
  loader : String
  neighbor_sampler : Option PyVal
  input_train_nodes : Option NodeInput
  input_train_time : Option PyVal
  input_val_nodes : Option NodeInput
  input_val_time : Option PyVal
  input_test_nodes : Option NodeInput
  input_test_time : Option PyVal
  input_pred_nodes : Option NodeInput
  input_pred_time : Option PyVal
  input_train_id : Option PyVal
  input_val_id : Option PyVal
  input_test_id : Option PyVal
  input_pred_id : Option PyVal
deriving DecidableEq, Inhabited

/-- The error-free tail of `LightningNodeData.__init__` (lines 292-358),
run after loader validation and input resolution: coerce
`batch_size`/`num_workers` for `loader='full'` (warning when the passed
value is changed), merge kwargs through the base `__init__`, force
`pin_memory=False` for `loader='full'` (warning when the user passed a
truthy `pin_memory`), install the neighbor sampler (an opaque
`NeighborSampler` for `loader='neighbor'`, the custom sampler otherwise),
drop the sampler signature's parameter names (`samplerParams`) from the
stored kwargs when a sampler is installed, and store the inputs. -/
def LightningNodeData.build (data : GraphData) (loader : String)
    (node_sampler : Option PyVal)
    (tn vn sn pn : Option NodeInput)
    (ttime vtime stime ptime : Option PyVal)
    (batch_size0 num_workers0 : Int) (kwargs : List (String × PyVal))
    (samplerParams : List String) : LightningNodeData × List String :=
  let wbs : List String :=
    if loader = "full" ∧ batch_size0 ≠ 1 then ["batch_size-reset"] else []
  let batch_size := if loader = "full" ∧ batch_size0 ≠ 1 then 1 else batch_size0
  let wnw : List String :=
    if loader = "full" ∧ num_workers0 ≠ 0 then ["num_workers-reset"] else []
  let num_workers := if loader = "full" ∧ num_workers0 ≠ 0 then 0 else num_workers0
  let core := LightningDataModule.initCore
    (("batch_size", PyVal.int batch_size) :: ("num_workers", PyVal.int num_workers) :: kwargs)
  let wpin : List String :=
    if loader = "full" ∧ (dictGetD kwargs "pin_memory" (PyVal.bool false)).truthy
    then ["pin_memory-reset"] else []
  let kw := if loader = "full" then dictSet core.1 "pin_memory" (PyVal.bool false) else core.1
  let ns : Option PyVal := if loader = "neighbor" then some (PyVal.obj 0) else node_sampler
  let kw := if ns.isSome then samplerParams.foldl (fun a p => dictErase a p) kw else kw
  ({ kwargs := kw, has_val := vn.isSome, has_test := sn.isSome, data := data,
     loader := loader, neighbor_sampler := ns,
     input_train_nodes := tn, input_train_time := ttime,
     input_val_nodes := vn, input_val_time := vtime,
     input_test_nodes := sn, input_test_time := stime,
     input_pred_nodes := pn, input_pred_time := ptime,
     input_train_id := Option.none, input_val_id := Option.none,
     input_test_id := Option.none, input_pred_id := Option.none },
   wbs ++ wnw ++ core.2 ++ wpin)

/-- `LightningNodeData.__init__` (lines 256-358): a custom `node_sampler`
overrides `loader` to `custom`; the loader name is asserted to be one of
`full`/`neighbor`/`custom`; missing split inputs are inferred (the
validation split falling back from `val` to `valid`); the base `__init__`
raises `ModuleNotFoundError` when `pytorch_lightning` is unavailable;
otherwise the module state is built. -/
def LightningNodeData.init (plAvailable : Bool) (data : GraphData)
    (tn0 : Option NodeInput) (ttime : Option PyVal)
    (vn0 : Option NodeInput) (vtime : Option PyVal)
    (sn0 : Option NodeInput) (stime : Option PyVal)
    (pn0 : Option NodeInput) (ptime : Option PyVal)
    (loader0 : String) (node_sampler : Option PyVal)
    (batch_size0 num_workers0 : Int) (kwargs : List (String × PyVal))
    (samplerParams : List String) :
    Except PyError (LightningNodeData × List String) :=
  let loader := if node_sampler.isSome then "custom" else loader0
  if loader = "full" ∨ loader = "neighbor" ∨ loader = "custom" then
    match resolveInput tn0 data "train" with
    | .error e => .error e
    | .ok tn =>
      match resolveValInput vn0 data with
      | .error e => .error e
      | .ok vn =>
        match resolveInput sn0 data "test" with
        | .error e => .error e
        | .ok sn =>
          match resolveInput pn0 data "pred" with
          | .error e => .error e
          | .ok pn =>
            if plAvailable then
              .ok (LightningNodeData.build data loader node_sampler tn vn sn pn
                    ttime vtime stime ptime batch_size0 num_workers0 kwargs samplerParams)
            else .error .moduleNotFoundError
  else .error .assertionError

/-- `LightningNodeData.prepare_data` (lines 360-374): with `loader='full'`
and more than one device, raises `ValueError`; otherwise defers to the
base-class strategy check. The method mutates nothing. -/
def LightningNodeData.prepare_data (m : LightningNodeData) (t : Trainer) :
    Except PyError LightningNodeData :=
  if m.loader = "full" ∧ 1 < t.num_devices then .error .valueError
  else (LightningDataModule.prepareOutcome t).map (fun _ => m)

/-- `LightningNodeData.dataloader` (lines 376-406): for `loader='full'`, a
fresh `torch.utils.data.DataLoader` over `[self.data]` with `shuffle`
forced to `True` and any (batch-)sampler dropped; otherwise it reads
`self.neighbor_sampler` (line 400) — raising `AttributeError` when the
attribute was never assigned, i.e. for `loader='custom'` with no custom
sampler — and constructs a fresh `NodeLoader` over `self.data` with it and
the given split inputs. Returns the outcome and the allocation counter
(unchanged when no loader was constructed). -/
def LightningNodeData.dataloader (m : LightningNodeData)
    (input_nodes : Option NodeInput) (input_time input_id : Option PyVal)
    (kwargs : List (String × PyVal)) (alloc : Nat) : Except PyError Loader × Nat :=
  if m.loader = "full" then
    let kw := dictErase (dictErase (dictSet kwargs "shuffle" (PyVal.bool true)) "sampler")
      "batch_sampler"
    (.ok { oid := alloc, kind := "TorchDataLoader", dataRef := some m.data, kwargs := kw },
     alloc + 1)
  else
    match m.neighbor_sampler with
    | Option.none => (.error .attributeError, alloc)
    | some samp =>
      (.ok { oid := alloc, kind := "NodeLoader", dataRef := some m.data,
             node_sampler := some samp, input_nodes := input_nodes,
             input_time := input_time, input_id := input_id, kwargs := kwargs },
       alloc + 1)

/-- `LightningNodeData.train_dataloader` (lines 408-415). -/
def LightningNodeData.train_dataloader (m : LightningNodeData) (alloc : Nat) :
    Except PyError Loader × LightningNodeData × Nat :=
  let sh : Bool := decide (dictGetD m.kwargs "sampler" PyVal.none = PyVal.none)
      && decide (dictGetD m.kwargs "batch_sampler" PyVal.none = PyVal.none)
  let r := m.dataloader m.input_train_nodes m.input_train_time m.input_train_id
      (("shuffle", PyVal.bool sh) :: m.kwargs) alloc
  (r.1, m, r.2)

/-- `LightningNodeData.val_dataloader` (lines 417-424): pops `sampler` and
`batch_sampler` from a copy of `self.kwargs`. -/
def LightningNodeData.val_dataloader (m : LightningNodeData) (alloc : Nat) :
    Except PyError Loader × LightningNodeData × Nat :=
  let kw := dictErase (dictErase m.kwargs "sampler") "batch_sampler"
  let r := m.dataloader m.input_val_nodes m.input_val_time m.input_val_id
      (("shuffle", PyVal.bool false) :: kw) alloc
  (r.1, m, r.2)

/-- `LightningNodeData.test_dataloader` (lines 426-433). -/
def LightningNodeData.test_dataloader (m : LightningNodeData) (alloc : Nat) :
    Except PyError Loader × LightningNodeData × Nat :=
  let kw := dictErase (dictErase m.kwargs "sampler") "batch_sampler"
  let r := m.dataloader m.input_test_nodes m.input_test_time m.input_test_id
      (("shuffle", PyVal.bool false) :: kw) alloc
  (r.1, m, r.2)

/-- `LightningNodeData.predict_dataloader` (lines 435-442). -/
def LightningNodeData.predict_dataloader (m : LightningNodeData) (alloc : Nat) :
    Except PyError Loader × LightningNodeData × Nat :=
  let kw := dictErase (dictErase m.kwargs "sampler") "batch_sampler"
  let r := m.dataloader m.input_pred_nodes m.input_pred_time m.input_pred_id
      (("shuffle", PyVal.bool false) :: kw) alloc
  (r.1, m, r.2)

/-- The state stored by `LightningLinkData.__init__` (lines 514-606). -/
structure LightningLinkData where
  kwargs : List (String × PyVal)
  has_val : Bool
  has_test : Bool
  data : GraphData
  loader : String
  neighbor_sampler : Option PyVal
  input_train_edges : PyVal
  input_train_labels : Option PyVal
  input_train_time : Option PyVal
  input_val_edges : Option PyVal
  input_val_labels : Option PyVal
  input_val_time : Option PyVal
  input_test_edges : Option PyVal
  input_test_labels : Option PyVal
  input_test_time : Option PyVal
  input_train_id : Option PyVal
  input_val_id : Option PyVal
  input_test_id : Option PyVal
deriving DecidableEq, Inhabited

/-- The error-free tail of `LightningLinkData.__init__` (lines 541-606);
the steps mirror `LightningNodeData.build`, with the neighbor sampler
installed for both `loader='neighbor'` and `loader='link_neighbor'`. -/
def LightningLinkData.build (data : GraphData) (loader : String)
    (link_sampler : Option PyVal) (te : PyVal)
    (tlab ttime ve vlab vtime se slab stime : Option PyVal)
    (batch_size0 num_workers0 : Int) (kwargs : List (String × PyVal))
    (samplerParams : List String) : LightningLinkData × List String :=
  let wbs : List String :=
    if loader = "full" ∧ batch_size0 ≠ 1 then ["batch_size-reset"] else []
  let batch_size := if loader = "full" ∧ batch_size0 ≠ 1 then 1 else batch_size0
  let wnw : List String :=
    if loader = "full" ∧ num_workers0 ≠ 0 then ["num_workers-reset"] else []
  let num_workers := if loader = "full" ∧ num_workers0 ≠ 0 then 0 else num_workers0
  let core := LightningDataModule.initCore
    (("batch_size", PyVal.int batch_size) :: ("num_workers", PyVal.int num_workers) :: kwargs)
  let wpin : List String :=
    if loader = "full" ∧ (dictGetD kwargs "pin_memory" (PyVal.bool false)).truthy
    then ["pin_memory-reset"] else []
  let kw := if loader = "full" then dictSet core.1 "pin_memory" (PyVal.bool false) else core.1
  let ns : Option PyVal :=
    if loader = "neighbor" ∨ loader = "link_neighbor" then some (PyVal.obj 0) else link_sampler
  let kw := if ns.isSome then samplerParams.foldl (fun a p => dictErase a p) kw else kw
  ({ kwargs := kw, has_val := ve.isSome, has_test := se.isSome, data := data,
     loader := loader, neighbor_sampler := ns,
     input_train_edges := te, input_train_labels := tlab, input_train_time := ttime,
     input_val_edges := ve, input_val_labels := vlab, input_val_time := vtime,
     input_test_edges := se, input_test_labels := slab, input_test_time := stime,
     input_train_id := Option.none, input_val_id := Option.none,
     input_test_id := Option.none },
   wbs ++ wnw ++ core.2 ++ wpin)

/-- `LightningLinkData.__init__` (lines 514-606): a custom `link_sampler`
overrides `loader` to `custom`; the loader name is asserted to be one of
`full`/`neighbor`/`link_neighbor`/`custom`; missing training edges raise
`NotImplementedError` (no automatic inference); the base `__init__`
raises `ModuleNotFoundError` when `pytorch_lightning` is unavailable. -/
def LightningLinkData.init (plAvailable : Bool) (data : GraphData)
    (te0 : Option PyVal) (tlab ttime : Option PyVal)
    (ve : Option PyVal) (vlab vtime : Option PyVal)
    (se : Option PyVal) (slab stime : Option PyVal)
    (loader0 : String) (link_sampler : Option PyVal)
    (batch_size0 num_workers0 : Int) (kwargs : List (String × PyVal))
    (samplerParams : List String) :
    Except PyError (LightningLinkData × List String) :=
  let loader := if link_sampler.isSome then "custom" else loader0
  if loader = "full" ∨ loader = "neighbor" ∨ loader = "link_neighbor" ∨ loader = "custom" then
    match te0 with
    | Option.none => .error .notImplementedError
    | some te =>
      if plAvailable then
        .ok (LightningLinkData.build data loader link_sampler te tlab ttime ve vlab vtime
              se slab stime batch_size0 num_workers0 kwargs samplerParams)
      else .error .moduleNotFoundError
  else .error .assertionError

/-- `LightningLinkData.prepare_data` (lines 608-622): with `loader='full'`
and more than one device, raises `ValueError`; otherwise defers to the
base-class strategy check. -/
def LightningLinkData.prepare_data (m : LightningLinkData) (t : Trainer) :
    Except PyError LightningLinkData :=
  if m.loader = "full" ∧ 1 < t.num_devices then .error .valueError
  else (LightningDataModule.prepareOutcome t).map (fun _ => m)

/-- `LightningLinkData.dataloader` (lines 624-656): like the
`LightningNodeData` version, the non-`full` branch reads
`self.neighbor_sampler` (line 649) and raises `AttributeError` when the
attribute was never assigned (`loader='custom'` with no custom sampler);
otherwise it constructs a fresh `LinkLoader`. -/
def LightningLinkData.dataloader (m : LightningLinkData)
    (input_edges : Option PyVal) (input_labels input_time input_id : Option PyVal)
    (kwargs : List (String × PyVal)) (alloc : Nat) : Except PyError Loader × Nat :=
  if m.loader = "full" then
    let kw := dictErase (dictErase (dictSet kwargs "shuffle" (PyVal.bool true)) "sampler")
      "batch_sampler"
    (.ok { oid := alloc, kind := "TorchDataLoader", dataRef := some m.data, kwargs := kw },
     alloc + 1)
  else
    match m.neighbor_sampler with
    | Option.none => (.error .attributeError, alloc)
    | some samp =>
      (.ok { oid := alloc, kind := "LinkLoader", dataRef := some m.data,
             node_sampler := some samp, edge_label_index := input_edges,
             edge_label := input_labels, edge_label_time := input_time,
             input_id := input_id, kwargs := kwargs },
       alloc + 1)

/-- `LightningLinkData.train_dataloader` (lines 658-665). -/
def LightningLinkData.train_dataloader (m : LightningLinkData) (alloc : Nat) :
    Except PyError Loader × LightningLinkData × Nat :=
  let sh : Bool := decide (dictGetD m.kwargs "sampler" PyVal.none = PyVal.none)
      && decide (dictGetD m.kwargs "batch_sampler" PyVal.none = PyVal.none)
  let r := m.dataloader (some m.input_train_edges) m.input_train_labels m.input_train_time
      m.input_train_id (("shuffle", PyVal.bool sh) :: m.kwargs) alloc
  (r.1, m, r.2)

/-- `LightningLinkData.val_dataloader` (lines 667-675): pops `sampler` and
`batch_sampler` from a copy of `self.kwargs`. -/
def LightningLinkData.val_dataloader (m : LightningLinkData) (alloc : Nat) :
    Except PyError Loader × LightningLinkData × Nat :=
  let kw := dictErase (dictErase m.kwargs "sampler") "batch_sampler"
  let r := m.dataloader m.input_val_edges m.input_val_labels m.input_val_time
      m.input_val_id (("shuffle", PyVal.bool false) :: kw) alloc
  (r.1, m, r.2)

/-- `LightningLinkData.test_dataloader` (lines 677-685). -/
def LightningLinkData.test_dataloader (m : LightningLinkData) (alloc : Nat) :
    Except PyError Loader × LightningLinkData × Nat :=
  let kw := dictErase (dictErase m.kwargs "sampler") "batch_sampler"
  let r := m.dataloader m.input_test_edges m.input_test_labels m.input_test_time
      m.input_test_id (("shuffle", PyVal.bool false) :: kw) alloc
  (r.1, m, r.2)

theorem LightningNodeData.node_init_inv (pl : Bool) (data : GraphData)
    (tn0 : Option NodeInput) (ttime : Option PyVal)
    (vn0 : Option NodeInput) (vtime : Option PyVal)
    (sn0 : Option NodeInput) (stime : Option PyVal)
    (pn0 : Option NodeInput) (ptime : Option PyVal)
    (loader0 : String) (node_sampler : Option PyVal)
    (bs nw : Int) (kw : List (String × PyVal)) (sp : List String)
    (p : LightningNodeData × List String)
    (h : LightningNodeData.init pl data tn0 ttime vn0 vtime sn0 stime pn0 ptime loader0
      node_sampler bs nw kw sp = .ok p) :
    pl = true ∧
    ∃ tn vn sn pn,
      resolveInput tn0 data "train" = .ok tn ∧
      resolveValInput vn0 data = .ok vn ∧
      resolveInput sn0 data "test" = .ok sn ∧
      resolveInput pn0 data "pred" = .ok pn ∧
      p = LightningNodeData.build data (if node_sampler.isSome then "custom" else loader0)
        node_sampler tn vn sn pn ttime vtime stime ptime bs nw kw sp := by
  simp only [LightningNodeData.init] at h
  by_cases hL :
      (if node_sampler.isSome then "custom" else loader0) = "full" ∨
      (if node_sampler.isSome then "custom" else loader0) = "neighbor" ∨
      (if node_sampler.isSome then "custom" else loader0) = "custom"
  · rw [if_pos hL] at h
    cases h1 : resolveInput tn0 data "train" with
    | error e => rw [h1] at h; exact Except.noConfusion h
    | ok tn =>
      simp only [h1] at h
      cases h2 : resolveValInput vn0 data with
      | error e => rw [h2] at h; exact Except.noConfusion h
      | ok vn =>
        simp only [h2] at h
        cases h3 : resolveInput sn0 data "test" with
        | error e => rw [h3] at h; exact Except.noConfusion h
        | ok sn =>
          simp only [h3] at h
          cases h4 : resolveInput pn0 data "pred" with
          | error e => rw [h4] at h; exact Except.noConfusion h
          | ok pn =>
            simp only [h4] at h
            cases pl with
            | false => exact Except.noConfusion h
            | true =>
              exact ⟨rfl, tn, vn, sn, pn, rfl, rfl, rfl, rfl, (Except.ok.inj h).symm⟩
  · rw [if_neg hL] at h
    exact Except.noConfusion h

theorem LightningLinkData.link_init_inv (pl : Bool) (data : GraphData)
    (te0 : Option PyVal) (tlab ttime : Option PyVal)
    (ve : Option PyVal) (vlab vtime : Option PyVal)
    (se : Option PyVal) (slab stime : Option PyVal)
    (loader0 : String) (link_sampler : Option PyVal)
    (bs nw : Int) (kw : List (String × PyVal)) (sp : List String)
    (p : LightningLinkData × List String)
    (h : LightningLinkData.init pl data te0 tlab ttime ve vlab vtime se slab stime loader0
      link_sampler bs nw kw sp = .ok p) :
    pl = true ∧
    ∃ te, te0 = some te ∧
      p = LightningLinkData.build data (if link_sampler.isSome then "custom" else loader0)
        link_sampler te tlab ttime ve vlab vtime se slab stime bs nw kw sp := by
  simp only [LightningLinkData.init] at h
  by_cases hL :
      (if link_sampler.isSome then "custom" else loader0) = "full" ∨
      (if link_sampler.isSome then "custom" else loader0) = "neighbor" ∨
      (if link_sampler.isSome then "custom" else loader0) = "link_neighbor" ∨
      (if link_sampler.isSome then "custom" else loader0) = "custom"
  · rw [if_pos hL] at h
    cases te0 with
    | none => exact Except.noConfusion h
    | some te =>
      cases pl with
      | false => exact Except.noConfusion h
      | true => exact ⟨rfl, te, rfl, (Except.ok.inj h).symm⟩
  · rw [if_neg hL] at h
    exact Except.noConfusion h

theorem infer_input_nodes_error (d : GraphData) (s : String) (e : PyError)
    (h : infer_input_nodes d s = .error e) : e = .valueError := by
  simp only [infer_input_nodes] at h
  split at h
  · exact Except.noConfusion h
  · split at h
    · exact Except.noConfusion h
    · split at h
      · exact (Except.error.inj h).symm
      · exact Except.noConfusion h

theorem resolveInput_error (g : Option NodeInput) (d : GraphData) (s : String) (e : PyError)
    (h : resolveInput g d s = .error e) : e = .valueError := by
  cases g with
  | none => exact infer_input_nodes_error d s e h
  | some v => exact Except.noConfusion h

theorem resolveValInput_error (g : Option NodeInput) (d : GraphData) (e : PyError)
    (h : resolveValInput g d = .error e) : e = .valueError := by
  cases g with
  | none =>
    simp only [resolveValInput] at h
    split at h
    · rename_i e' he
      exact (Except.error.inj h) ▸ infer_input_nodes_error d "val" e' he
    · exact Except.noConfusion h
    · exact infer_input_nodes_error d "valid" e h
  | some v => exact Except.noConfusion h

theorem LightningNodeData.node_init_assert_iff (pl : Bool) (data : GraphData)
    (tn0 : Option NodeInput) (ttime : Option PyVal)
    (vn0 : Option NodeInput) (vtime : Option PyVal)
    (sn0 : Option NodeInput) (stime : Option PyVal)
    (pn0 : Option NodeInput) (ptime : Option PyVal)
    (loader0 : String) (ns : Option PyVal)
    (bs nw : Int) (kw : List (String × PyVal)) (sp : List String) :
    LightningNodeData.init pl data tn0 ttime vn0 vtime sn0 stime pn0 ptime loader0
      ns bs nw kw sp = .error .assertionError ↔
    ¬ ((if ns.isSome then "custom" else loader0) = "full" ∨
       (if ns.isSome then "custom" else loader0) = "neighbor" ∨
       (if ns.isSome then "custom" else loader0) = "custom") := by
  simp only [LightningNodeData.init]
  by_cases hL :
      (if ns.isSome then "custom" else loader0) = "full" ∨
      (if ns.isSome then "custom" else loader0) = "neighbor" ∨
      (if ns.isSome then "custom" else loader0) = "custom"
  · rw [if_pos hL]
    apply iff_of_false ?_ (not_not_intro hL)
    intro h
    cases h1 : resolveInput tn0 data "train" with
    | error e =>
      rw [h1] at h
      exact PyError.noConfusion
        ((resolveInput_error _ _ _ _ h1).symm.trans (Except.error.inj h))
    | ok tn =>
      simp only [h1] at h
      cases h2 : resolveValInput vn0 data with
      | error e =>
        rw [h2] at h
        exact PyError.noConfusion
          ((resolveValInput_error _ _ _ h2).symm.trans (Except.error.inj h))
      | ok vn =>
        simp only [h2] at h
        cases h3 : resolveInput sn0 data "test" with
        | error e =>
          rw [h3] at h
          exact PyError.noConfusion
            ((resolveInput_error _ _ _ _ h3).symm.trans (Except.error.inj h))
        | ok sn =>
          simp only [h3] at h
          cases h4 : resolveInput pn0 data "pred" with
          | error e =>
            rw [h4] at h
            exact PyError.noConfusion
              ((resolveInput_error _ _ _ _ h4).symm.trans (Except.error.inj h))
          | ok pn =>
            simp only [h4] at h
            cases pl with
            | false => exact PyError.noConfusion (Except.error.inj h)
            | true => exact Except.noConfusion h
  · rw [if_neg hL]
    exact iff_of_true rfl hL

theorem LightningLinkData.link_init_assert_iff (pl : Bool) (data : GraphData)
    (te0 : Option PyVal) (tlab ttime : Option PyVal)
    (ve : Option PyVal) (vlab vtime : Option PyVal)
    (se : Option PyVal) (slab stime : Option PyVal)
    (loader0 : String) (ls : Option PyVal)
    (bs nw : Int) (kw : List (String × PyVal)) (sp : List String) :
    LightningLinkData.init pl data te0 tlab ttime ve vlab vtime se slab stime loader0
      ls bs nw kw sp = .error .assertionError ↔
    ¬ ((if ls.isSome then "custom" else loader0) = "full" ∨
       (if ls.isSome then "custom" else loader0) = "neighbor" ∨
       (if ls.isSome then "custom" else loader0) = "link_neighbor" ∨
       (if ls.isSome then "custom" else loader0) = "custom") := by
  simp only [LightningLinkData.init]
  by_cases hL :
      (if ls.isSome then "custom" else loader0) = "full" ∨
      (if ls.isSome then "custom" else loader0) = "neighbor" ∨
      (if ls.isSome then "custom" else loader0) = "link_neighbor" ∨
      (if ls.isSome then "custom" else loader0) = "custom"
  · rw [if_pos hL]
    apply iff_of_false ?_ (not_not_intro hL)
    intro h
    cases te0 with
    | none => exact PyError.noConfusion (Except.error.inj h)
    | some te =>
      cases pl with
      | false => exact PyError.noConfusion (Except.error.inj h)
      | true => exact Except.noConfusion h
  · rw [if_neg hL]
    exact iff_of_true rfl hL

/-- A minimal homogeneous graph carrying a `train_idx` attribute. -/
def sampleHomoData : GraphData := GraphData.homo [("train_idx", PyVal.obj 1)]

/-- A `LightningNodeData` module constructed with `loader='full'`. -/
def fullNodeModule : LightningNodeData :=
  match LightningNodeData.init true sampleHomoData Option.none Option.none Option.none
      Option.none Option.none Option.none Option.none Option.none "full" Option.none
      1 0 [] [] with
  | .ok p => p.1
  | .error _ => default

/-- A user dataset object that is not an `IterableDataset`. -/
def sampleDataset : PyDataset := { oid := 10, iterable := false }

/-- A `LightningDataset` module over `sampleDataset` with no validation or
test split. -/
def datasetModule : LightningDataset :=
  match LightningDataset.init true sampleDataset Option.none Option.none 1 0 [] with
  | .ok p => p.1
  | .error _ => default

/-- Claim C1 (corrected): `prepare_data` raises `NotImplementedError` iff the
trainer's strategy is neither `SingleDeviceStrategy` nor `DDPSpawnStrategy`,
and returns normally without modifying the module otherwise — except that a
`LightningNodeData` or `LightningLinkData` instance with `loader='full'` on
more than one device raises `ValueError` before the strategy check, even
when the strategy is one of the two supported ones. -/
theorem C1_prepare_data_strategy_gate :
    (∀ (m : LightningDataset) (t : Trainer),
      (LightningDataset.prepare_data m t = .error .notImplementedError ↔
        strategySupported t.strategy = false) ∧
      (strategySupported t.strategy = true → LightningDataset.prepare_data m t = .ok m)) ∧
    (∀ (m : LightningNodeData) (t : Trainer),
      ¬ (m.loader = "full" ∧ 1 < t.num_devices) →
      ((LightningNodeData.prepare_data m t = .error .notImplementedError ↔
        strategySupported t.strategy = false) ∧
      (strategySupported t.strategy = true → LightningNodeData.prepare_data m t = .ok m))) ∧
    (∀ (m : LightningLinkData) (t : Trainer),
      ¬ (m.loader = "full" ∧ 1 < t.num_devices) →
      ((LightningLinkData.prepare_data m t = .error .notImplementedError ↔
        strategySupported t.strategy = false) ∧
      (strategySupported t.strategy = true → LightningLinkData.prepare_data m t = .ok m))) ∧
    (∀ (m : LightningNodeData) (t : Trainer),
      m.loader = "full" → 1 < t.num_devices →
      LightningNodeData.prepare_data m t = .error .valueError) ∧
    (∀ (m : LightningLinkData) (t : Trainer),
      m.loader = "full" → 1 < t.num_devices →
      LightningLinkData.prepare_data m t = .error .valueError) := by
  refine ⟨?_, ?_, ?_, ?_, ?_⟩
  · intro m t
    unfold LightningDataset.prepare_data LightningDataModule.prepareOutcome
    cases hS : strategySupported t.strategy <;> simp [Except.map]
  · intro m t hnf
    unfold LightningNodeData.prepare_data LightningDataModule.prepareOutcome
    rw [if_neg hnf]
    cases hS : strategySupported t.strategy <;> simp [Except.map]
  · intro m t hnf
    unfold LightningLinkData.prepare_data LightningDataModule.prepareOutcome
    rw [if_neg hnf]
    cases hS : strategySupported t.strategy <;> simp [Except.map]
  · intro m t hf hd
    unfold LightningNodeData.prepare_data
    rw [if_pos ⟨hf, hd⟩]
  · intro m t hf hd
    unfold LightningLinkData.prepare_data
    rw [if_pos ⟨hf, hd⟩]

theorem C1_witness :
    LightningDataset.prepare_data datasetModule
      { num_devices := 1, strategy := Strategy.singleDevice } = .ok datasetModule :=
  (C1_prepare_data_strategy_gate.1 datasetModule
    { num_devices := 1, strategy := Strategy.singleDevice }).2 rfl

/-- Counterexample to claim C1 as stated: `fullNodeModule` (a reachable
`LightningNodeData` with `loader='full'`) on a 2-device trainer running the
supported `DDPSpawnStrategy` raises `ValueError` instead of returning
normally, and without the claimed `NotImplementedError` relationship. -/
theorem C1_counterexample :
    strategySupported Strategy.ddpSpawn = true ∧
    fullNodeModule.loader = "full" ∧
    LightningNodeData.prepare_data fullNodeModule
      { num_devices := 2, strategy := Strategy.ddpSpawn } = .error .valueError := by
  exact ⟨rfl, by decide, rfl⟩

/-- Claim C5 (confirmed): with `node_sampler=None`, `LightningNodeData.__init__`
fails its loader assertion exactly when `loader` is outside
`full`/`neighbor`/`custom`, and never when a sampler is supplied (the loader
is overridden to `custom`); `LightningLinkData.__init__` likewise accepts
exactly `full`/`neighbor`/`link_neighbor`/`custom`. -/
theorem C5_loader_validation :
    (∀ (pl : Bool) (data : GraphData) (tn0 : Option NodeInput) (ttime : Option PyVal)
       (vn0 : Option NodeInput) (vtime : Option PyVal) (sn0 : Option NodeInput)
       (stime : Option PyVal) (pn0 : Option NodeInput) (ptime : Option PyVal)
       (loader0 : String) (bs nw : Int) (kw : List (String × PyVal)) (sp : List String),
      LightningNodeData.init pl data tn0 ttime vn0 vtime sn0 stime pn0 ptime loader0
        Option.none bs nw kw sp = .error .assertionError ↔
      ¬ (loader0 = "full" ∨ loader0 = "neighbor" ∨ loader0 = "custom")) ∧
    (∀ (pl : Bool) (data : GraphData) (tn0 : Option NodeInput) (ttime : Option PyVal)
       (vn0 : Option NodeInput) (vtime : Option PyVal) (sn0 : Option NodeInput)
       (stime : Option PyVal) (pn0 : Option NodeInput) (ptime : Option PyVal)
       (loader0 : String) (ns : PyVal) (bs nw : Int) (kw : List (String × PyVal))
       (sp : List String),
      LightningNodeData.init pl data tn0 ttime vn0 vtime sn0 stime pn0 ptime loader0
        (some ns) bs nw kw sp ≠ .error .assertionError) ∧
    (∀ (pl : Bool) (data : GraphData) (te0 : Option PyVal) (tlab ttime : Option PyVal)
       (ve : Option PyVal) (vlab vtime : Option PyVal) (se : Option PyVal)
       (slab stime : Option PyVal) (loader0 : String) (bs nw : Int)
       (kw : List (String × PyVal)) (sp : List String),
      LightningLinkData.init pl data te0 tlab ttime ve vlab vtime se slab stime loader0
        Option.none bs nw kw sp = .error .assertionError ↔
      ¬ (loader0 = "full" ∨ loader0 = "neighbor" ∨ loader0 = "link_neighbor" ∨
         loader0 = "custom")) ∧
    (∀ (pl : Bool) (data : GraphData) (te0 : Option PyVal) (tlab ttime : Option PyVal)
       (ve : Option PyVal) (vlab vtime : Option PyVal) (se : Option PyVal)
       (slab stime : Option PyVal) (loader0 : String) (ls : PyVal) (bs nw : Int)
       (kw : List (String × PyVal)) (sp : List String),
      LightningLinkData.init pl data te0 tlab ttime ve vlab vtime se slab stime loader0
        (some ls) bs nw kw sp ≠ .error .assertionError) := by
  refine ⟨?_, ?_, ?_, ?_⟩
  · intro pl data tn0 ttime vn0 vtime sn0 stime pn0 ptime loader0 bs nw kw sp
    exact LightningNodeData.node_init_assert_iff pl data tn0 ttime vn0 vtime sn0 stime pn0
      ptime loader0 Option.none bs nw kw sp
  · intro pl data tn0 ttime vn0 vtime sn0 stime pn0 ptime loader0 ns bs nw kw sp h
    exact (LightningNodeData.node_init_assert_iff pl data tn0 ttime vn0 vtime sn0 stime pn0
      ptime loader0 (some ns) bs nw kw sp).mp h (Or.inr (Or.inr rfl))
  · intro pl data te0 tlab ttime ve vlab vtime se slab stime loader0 bs nw kw sp
    exact LightningLinkData.link_init_assert_iff pl data te0 tlab ttime ve vlab vtime se slab
      stime loader0 Option.none bs nw kw sp
  · intro pl data te0 tlab ttime ve vlab vtime se slab stime loader0 ls bs nw kw sp h
    exact (LightningLinkData.link_init_assert_iff pl data te0 tlab ttime ve vlab vtime se slab
      stime loader0 (some ls) bs nw kw sp).mp h (Or.inr (Or.inr (Or.inr rfl)))

theorem C5_witness :
    LightningNodeData.init true sampleHomoData Option.none Option.none Option.none
      Option.none Option.none Option.none Option.none Option.none "bogus" Option.none
      1 0 [] [] = .error .assertionError :=
  (C5_loader_validation.1 true sampleHomoData Option.none Option.none Option.none
    Option.none Option.none Option.none Option.none Option.none "bogus" 1 0 [] []).mpr
    (by decide)

/-- Claim C6 (confirmed): a `LightningNodeData` or `LightningLinkData` with
`loader='full'` raises `ValueError` from `prepare_data` exactly when the
trainer reports more than one device; with a single device the call is
exactly the base-class strategy check. -/
theorem C6_full_loader_device_check :
    (∀ (m : LightningNodeData) (t : Trainer), m.loader = "full" →
      ((LightningNodeData.prepare_data m t = .error .valueError ↔ 1 < t.num_devices) ∧
       (t.num_devices ≤ 1 →
         LightningNodeData.prepare_data m t =
           (LightningDataModule.prepareOutcome t).map (fun _ => m)))) ∧
    (∀ (m : LightningLinkData) (t : Trainer), m.loader = "full" →
      ((LightningLinkData.prepare_data m t = .error .valueError ↔ 1 < t.num_devices) ∧
       (t.num_devices ≤ 1 →
         LightningLinkData.prepare_data m t =
           (LightningDataModule.prepareOutcome t).map (fun _ => m)))) := by
  constructor
  · intro m t hf
    unfold LightningNodeData.prepare_data
    by_cases hd : 1 < t.num_devices
    · rw [if_pos ⟨hf, hd⟩]
      exact ⟨iff_of_true rfl hd, fun hle => absurd hd (by omega)⟩
    · rw [if_neg (fun hc => hd hc.2)]
      refine ⟨iff_of_false ?_ hd, fun _ => rfl⟩
      intro hcontr
      unfold LightningDataModule.prepareOutcome at hcontr
      by_cases hS : strategySupported t.strategy = true
      · rw [if_pos hS] at hcontr
        exact Except.noConfusion hcontr
      · rw [if_neg hS] at hcontr
        exact PyError.noConfusion (Except.error.inj hcontr)
  · intro m t hf
    unfold LightningLinkData.prepare_data
    by_cases hd : 1 < t.num_devices
    · rw [if_pos ⟨hf, hd⟩]
      exact ⟨iff_of_true rfl hd, fun hle => absurd hd (by omega)⟩
    · rw [if_neg (fun hc => hd hc.2)]
      refine ⟨iff_of_false ?_ hd, fun _ => rfl⟩
      intro hcontr
      unfold LightningDataModule.prepareOutcome at hcontr
      by_cases hS : strategySupported t.strategy = true
      · rw [if_pos hS] at hcontr
        exact Except.noConfusion hcontr
      · rw [if_neg hS] at hcontr
        exact PyError.noConfusion (Except.error.inj hcontr)

theorem C6_witness :
    LightningNodeData.prepare_data fullNodeModule
      { num_devices := 3, strategy := Strategy.singleDevice } = .error .valueError :=
  (C6_full_loader_device_check.1 fullNodeModule
    { num_devices := 3, strategy := Strategy.singleDevice } (by decide)).1.mpr (by decide)

deriving instance DecidableEq for Except

theorem LightningNodeData.node_init_error_cases (pl : Bool) (data : GraphData)
    (tn0 : Option NodeInput) (ttime : Option PyVal)
    (vn0 : Option NodeInput) (vtime : Option PyVal)
    (sn0 : Option NodeInput) (stime : Option PyVal)
    (pn0 : Option NodeInput) (ptime : Option PyVal)
    (loader0 : String) (ns : Option PyVal)
    (bs nw : Int) (kw : List (String × PyVal)) (sp : List String) (e : PyError)
    (h : LightningNodeData.init pl data tn0 ttime vn0 vtime sn0 stime pn0 ptime loader0
      ns bs nw kw sp = .error e) :
    e = .assertionError ∨ e = .valueError ∨ (e = .moduleNotFoundError ∧ pl = false) := by
  simp only [LightningNodeData.init] at h
  by_cases hL :
      (if ns.isSome then "custom" else loader0) = "full" ∨
      (if ns.isSome then "custom" else loader0) = "neighbor" ∨
      (if ns.isSome then "custom" else loader0) = "custom"
  · rw [if_pos hL] at h
    cases h1 : resolveInput tn0 data "train" with
    | error e1 =>
      rw [h1] at h
      exact Or.inr (Or.inl ((Except.error.inj h) ▸ resolveInput_error _ _ _ _ h1))
    | ok tn =>
      simp only [h1] at h
      cases h2 : resolveValInput vn0 data with
      | error e2 =>
        rw [h2] at h
        exact Or.inr (Or.inl ((Except.error.inj h) ▸ resolveValInput_error _ _ _ h2))
      | ok vn =>
        simp only [h2] at h
        cases h3 : resolveInput sn0 data "test" with
        | error e3 =>
          rw [h3] at h
          exact Or.inr (Or.inl ((Except.error.inj h) ▸ resolveInput_error _ _ _ _ h3))
        | ok sn =>
          simp only [h3] at h
          cases h4 : resolveInput pn0 data "pred" with
          | error e4 =>
            rw [h4] at h
            exact Or.inr (Or.inl ((Except.error.inj h) ▸ resolveInput_error _ _ _ _ h4))
          | ok pn =>
            simp only [h4] at h
            cases pl with
            | false => exact Or.inr (Or.inr ⟨(Except.error.inj h).symm, rfl⟩)
            | true => exact Except.noConfusion h
  · rw [if_neg hL] at h
    exact Or.inl (Except.error.inj h).symm

theorem LightningLinkData.link_init_error_cases (pl : Bool) (data : GraphData)
    (te0 : Option PyVal) (tlab ttime : Option PyVal)
    (ve : Option PyVal) (vlab vtime : Option PyVal)
    (se : Option PyVal) (slab stime : Option PyVal)
    (loader0 : String) (ls : Option PyVal)
    (bs nw : Int) (kw : List (String × PyVal)) (sp : List String) (e : PyError)
    (h : LightningLinkData.init pl data te0 tlab ttime ve vlab vtime se slab stime loader0
      ls bs nw kw sp = .error e) :
    e = .assertionError ∨ e = .notImplementedError ∨ (e = .moduleNotFoundError ∧ pl = false) := by
  simp only [LightningLinkData.init] at h
  by_cases hL :
      (if ls.isSome then "custom" else loader0) = "full" ∨
      (if ls.isSome then "custom" else loader0) = "neighbor" ∨
      (if ls.isSome then "custom" else loader0) = "link_neighbor" ∨
      (if ls.isSome then "custom" else loader0) = "custom"
  · rw [if_pos hL] at h
    cases te0 with
    | none => exact Or.inr (Or.inl (Except.error.inj h).symm)
    | some te =>
      cases pl with
      | false => exact Or.inr (Or.inr ⟨(Except.error.inj h).symm, rfl⟩)
      | true => exact Except.noConfusion h
  · rw [if_neg hL] at h
    exact Or.inl (Except.error.inj h).symm

/-- Claim C7 (corrected): with `pytorch_lightning` unavailable the base
`__init__` always raises `ModuleNotFoundError` before storing configuration,
and `LightningDataset` inherits this for every argument list; for
`LightningNodeData`/`LightningLinkData` the error is raised provided their
own pre-`super()` validation passes (loader assertion, input inference,
`LightningLinkData`'s training-edges check), which otherwise raises first.
With the package available, `ModuleNotFoundError` is never raised. -/
theorem C7_pl_missing_gate :
    (∀ (hv ht : Bool) (kw : List (String × PyVal)),
      LightningDataModule.init false hv ht kw = .error .moduleNotFoundError) ∧
    (∀ (tr : PyDataset) (vd td : Option PyDataset) (bs nw : Int)
       (kw : List (String × PyVal)),
      LightningDataset.init false tr vd td bs nw kw = .error .moduleNotFoundError) ∧
    (∀ (data : GraphData) (tn0 : Option NodeInput) (ttime : Option PyVal)
       (vn0 : Option NodeInput) (vtime : Option PyVal) (sn0 : Option NodeInput)
       (stime : Option PyVal) (pn0 : Option NodeInput) (ptime : Option PyVal)
       (loader0 : String) (ns : Option PyVal) (bs nw : Int) (kw : List (String × PyVal))
       (sp : List String) (tn vn sn pn : Option NodeInput),
      ((if ns.isSome then "custom" else loader0) = "full" ∨
       (if ns.isSome then "custom" else loader0) = "neighbor" ∨
       (if ns.isSome then "custom" else loader0) = "custom") →
      resolveInput tn0 data "train" = .ok tn →
      resolveValInput vn0 data = .ok vn →
      resolveInput sn0 data "test" = .ok sn →
      resolveInput pn0 data "pred" = .ok pn →
      LightningNodeData.init false data tn0 ttime vn0 vtime sn0 stime pn0 ptime loader0
        ns bs nw kw sp = .error .moduleNotFoundError) ∧
    (∀ (data : GraphData) (te : PyVal) (tlab ttime : Option PyVal) (ve : Option PyVal)
       (vlab vtime : Option PyVal) (se : Option PyVal) (slab stime : Option PyVal)
       (loader0 : String) (ls : Option PyVal) (bs nw : Int) (kw : List (String × PyVal))
       (sp : List String),
      ((if ls.isSome then "custom" else loader0) = "full" ∨
       (if ls.isSome then "custom" else loader0) = "neighbor" ∨
       (if ls.isSome then "custom" else loader0) = "link_neighbor" ∨
       (if ls.isSome then "custom" else loader0) = "custom") →
      LightningLinkData.init false data (some te) tlab ttime ve vlab vtime se slab stime
        loader0 ls bs nw kw sp = .error .moduleNotFoundError) ∧
    (∀ (hv ht : Bool) (kw : List (String × PyVal)),
      LightningDataModule.init true hv ht kw ≠ .error .moduleNotFoundError) ∧
    (∀ (tr : PyDataset) (vd td : Option PyDataset) (bs nw : Int)
       (kw : List (String × PyVal)),
      LightningDataset.init true tr vd td bs nw kw ≠ .error .moduleNotFoundError) ∧
    (∀ (data : GraphData) (tn0 : Option NodeInput) (ttime : Option PyVal)
       (vn0 : Option NodeInput) (vtime : Option PyVal) (sn0 : Option NodeInput)
       (stime : Option PyVal) (pn0 : Option NodeInput) (ptime : Option PyVal)
       (loader0 : String) (ns : Option PyVal) (bs nw : Int) (kw : List (String × PyVal))
       (sp : List String),
      LightningNodeData.init true data tn0 ttime vn0 vtime sn0 stime pn0 ptime loader0
        ns bs nw kw sp ≠ .error .moduleNotFoundError) ∧
    (∀ (data : GraphData) (te0 : Option PyVal) (tlab ttime : Option PyVal)
       (ve : Option PyVal) (vlab vtime : Option PyVal) (se : Option PyVal)
       (slab stime : Option PyVal) (loader0 : String) (ls : Option PyVal) (bs nw : Int)
       (kw : List (String × PyVal)) (sp : List String),
      LightningLinkData.init true data te0 tlab ttime ve vlab vtime se slab stime loader0
        ls bs nw kw sp ≠ .error .moduleNotFoundError) := by
  refine ⟨?_, ?_, ?_, ?_, ?_, ?_, ?_, ?_⟩
  · intro hv ht kw
    rfl
  · intro tr vd td bs nw kw
    rfl
  · intro data tn0 ttime vn0 vtime sn0 stime pn0 ptime loader0 ns bs nw kw sp
      tn vn sn pn hL h1 h2 h3 h4
    simp only [LightningNodeData.init]
    rw [if_pos hL]
    simp only [h1, h2, h3, h4]
    rfl
  · intro data te tlab ttime ve vlab vtime se slab stime loader0 ls bs nw kw sp hL
    simp only [LightningLinkData.init]
    rw [if_pos hL]
    rfl
  · intro hv ht kw h
    exact Except.noConfusion h
  · intro tr vd td bs nw kw h
    exact Except.noConfusion h
  · intro data tn0 ttime vn0 vtime sn0 stime pn0 ptime loader0 ns bs nw kw sp h
    rcases LightningNodeData.node_init_error_cases _ _ _ _ _ _ _ _ _ _ _ _ _ _ _ _ _ h with
      ha | hv | ⟨_, hpl⟩
    · exact PyError.noConfusion ha
    · exact PyError.noConfusion hv
    · exact Bool.noConfusion hpl
  · intro data te0 tlab ttime ve vlab vtime se slab stime loader0 ls bs nw kw sp h
    rcases LightningLinkData.link_init_error_cases _ _ _ _ _ _ _ _ _ _ _ _ _ _ _ _ _ _ h with
      ha | hn | ⟨_, hpl⟩
    · exact PyError.noConfusion ha
    · exact PyError.noConfusion hn
    · exact Bool.noConfusion hpl

theorem C7_witness :
    LightningNodeData.init false sampleHomoData Option.none Option.none Option.none
      Option.none Option.none Option.none Option.none Option.none "neighbor" Option.none
      1 0 [] [] = .error .moduleNotFoundError :=
  C7_pl_missing_gate.2.2.1 sampleHomoData Option.none Option.none Option.none Option.none
    Option.none Option.none Option.none Option.none "neighbor" Option.none 1 0 [] []
    (some (NodeInput.plain (PyVal.obj 1))) Option.none Option.none Option.none
    (by decide) rfl rfl rfl rfl

/-- Counterexample to claim C7 as stated: with `pytorch_lightning`
unavailable, a `LightningNodeData` construction with an invalid loader name
raises `AssertionError`, not `ModuleNotFoundError`. -/
theorem C7_counterexample :
    LightningNodeData.init false sampleHomoData Option.none Option.none Option.none
      Option.none Option.none Option.none Option.none Option.none "bogus" Option.none
      1 0 [] [] = .error .assertionError ∧
    ¬ LightningNodeData.init false sampleHomoData Option.none Option.none Option.none
      Option.none Option.none Option.none Option.none Option.none "bogus" Option.none
      1 0 [] [] = .error .moduleNotFoundError := by
  constructor
  · rfl
  · decide

theorem mem_singleton_if {c : Prop} [Decidable c] (s tag : String) :
    s ∈ (if c then [tag] else []) ↔ (c ∧ s = tag) := by
  by_cases h : c
  · simp [h]
  · simp [h]

theorem dictGet_defaultSet_ne (d : List (String × PyVal)) (key k : String) (v : PyVal)
    (h : k ≠ key) :
    dictGet (if dictHasKey d key = true then d else dictSet d key v) k = dictGet d k := by
  split
  · rfl
  · exact dictGet_set_ne d key k v h

theorem dictGet_defaultSet_self (d : List (String × PyVal)) (key : String) (v : PyVal) :
    dictGet (if dictHasKey d key = true then d else dictSet d key v) key =
    (if dictHasKey d key = true then dictGet d key else some v) := by
  split
  · rfl
  · exact dictGet_set_self d key v

theorem initCore_fst_get_other (kw : List (String × PyVal)) (k : String)
    (h1 : k ≠ "shuffle") (h2 : k ≠ "pin_memory") (h3 : k ≠ "persistent_workers") :
    dictGet (LightningDataModule.initCore kw).1 k = dictGet kw k := by
  unfold LightningDataModule.initCore
  dsimp only
  rw [dictGet_defaultSet_ne _ _ _ _ h3, dictGet_defaultSet_ne _ _ _ _ h2,
    dictGet_erase_ne _ _ _ h1]

theorem initCore_fst_get_shuffle (kw : List (String × PyVal)) :
    dictGet (LightningDataModule.initCore kw).1 "shuffle" = Option.none := by
  unfold LightningDataModule.initCore
  dsimp only
  rw [dictGet_defaultSet_ne _ _ _ _ (by decide), dictGet_defaultSet_ne _ _ _ _ (by decide),
    dictGet_erase_self]

theorem initCore_fst_get_pin (kw : List (String × PyVal)) :
    dictGet (LightningDataModule.initCore kw).1 "pin_memory" =
      (if dictHasKey kw "pin_memory" = true then dictGet kw "pin_memory"
       else some (PyVal.bool true)) := by
  unfold LightningDataModule.initCore
  dsimp only
  rw [dictGet_defaultSet_ne _ _ _ _ (by decide), dictGet_defaultSet_self]
  unfold dictHasKey
  rw [dictGet_erase_ne _ _ _ (by decide : ("pin_memory" : String) ≠ "shuffle")]

theorem initCore_fst_get_pw (kw : List (String × PyVal)) :
    dictGet (LightningDataModule.initCore kw).1 "persistent_workers" =
      (if dictHasKey kw "persistent_workers" = true then dictGet kw "persistent_workers"
       else some (PyVal.bool (dictGetD kw "num_workers" (PyVal.int 0)).gt0)) := by
  unfold LightningDataModule.initCore
  dsimp only
  rw [dictGet_defaultSet_self]
  set KW2 := (if dictHasKey (dictErase kw "shuffle") "pin_memory" = true
              then dictErase kw "shuffle"
              else dictSet (dictErase kw "shuffle") "pin_memory" (PyVal.bool true)) with hKW2
  have hget : dictGet KW2 "persistent_workers" = dictGet kw "persistent_workers" := by
    rw [hKW2, dictGet_defaultSet_ne _ _ _ _ (by decide), dictGet_erase_ne _ _ _ (by decide)]
  have hnw : dictGet KW2 "num_workers" = dictGet kw "num_workers" := by
    rw [hKW2, dictGet_defaultSet_ne _ _ _ _ (by decide), dictGet_erase_ne _ _ _ (by decide)]
  unfold dictHasKey dictGetD
  rw [hget, hnw]

theorem initCore_snd (kw : List (String × PyVal)) :
    (LightningDataModule.initCore kw).2 =
      (if dictHasKey kw "shuffle" = true then ["shuffle-ignored"] else []) := rfl

/-- Claim C3 (confirmed): the base `__init__` stores the input kwargs with
`shuffle` removed (warning emitted exactly when it was present),
`pin_memory` defaulted to `True` when absent, `persistent_workers`
defaulted to `num_workers > 0` when absent, and every other key kept with
its given value. -/
theorem C3_kwargs_merge (hv ht : Bool) (kw : List (String × PyVal))
    (m : BaseModule) (ws : List String)
    (h : LightningDataModule.init true hv ht kw = .ok (m, ws)) :
    dictGet m.kwargs "shuffle" = Option.none ∧
    (ws = ["shuffle-ignored"] ↔ dictHasKey kw "shuffle" = true) ∧
    (dictHasKey kw "pin_memory" = true →
      dictGet m.kwargs "pin_memory" = dictGet kw "pin_memory") ∧
    (dictHasKey kw "pin_memory" = false →
      dictGet m.kwargs "pin_memory" = some (PyVal.bool true)) ∧
    (dictHasKey kw "persistent_workers" = true →
      dictGet m.kwargs "persistent_workers" = dictGet kw "persistent_workers") ∧
    (dictHasKey kw "persistent_workers" = false →
      dictGet m.kwargs "persistent_workers" =
        some (PyVal.bool (dictGetD kw "num_workers" (PyVal.int 0)).gt0)) ∧
    (∀ n : Int, dictHasKey kw "persistent_workers" = false →
      dictGet kw "num_workers" = some (PyVal.int n) →
      dictGet m.kwargs "persistent_workers" = some (PyVal.bool (decide (0 < n)))) ∧
    (∀ k : String, k ≠ "shuffle" → k ≠ "pin_memory" → k ≠ "persistent_workers" →
      dictGet m.kwargs k = dictGet kw k) := by
  have h' := Except.ok.inj h
  obtain ⟨hm, hw⟩ := Prod.mk.inj h'
  have hkw : m.kwargs = (LightningDataModule.initCore kw).1 := by rw [← hm]
  have hws : ws = (LightningDataModule.initCore kw).2 := hw.symm
  rw [hkw, hws]
  refine ⟨initCore_fst_get_shuffle kw, ?_, ?_, ?_, ?_, ?_, ?_, ?_⟩
  · rw [initCore_snd]
    by_cases hs : dictHasKey kw "shuffle" = true
    · simp [hs]
    · simp [hs]
  · intro hp
    rw [initCore_fst_get_pin, if_pos hp]
  · intro hp
    rw [initCore_fst_get_pin, if_neg (by rw [hp]; exact Bool.false_ne_true)]
  · intro hp
    rw [initCore_fst_get_pw, if_pos hp]
  · intro hp
    rw [initCore_fst_get_pw, if_neg (by rw [hp]; exact Bool.false_ne_true)]
  · intro n hp hn
    rw [initCore_fst_get_pw, if_neg (by rw [hp]; exact Bool.false_ne_true)]
    unfold dictGetD
    rw [hn]
    rfl
  · intro k h1 h2 h3
    exact initCore_fst_get_other kw k h1 h2 h3

/-- Fixture kwargs for the base-module claims. -/
def baseKwFix : List (String × PyVal) := [("num_workers", PyVal.int 2)]

/-- The base module the fixture kwargs produce. -/
def baseModuleFix : BaseModule :=
  { kwargs := (LightningDataModule.initCore baseKwFix).1, has_val := false,
    has_test := false }

/-- The warnings the fixture kwargs produce. -/
def baseWsFix : List String := (LightningDataModule.initCore baseKwFix).2

theorem C3_witness :
    dictGet baseModuleFix.kwargs "persistent_workers" = some (PyVal.bool true) :=
  (C3_kwargs_merge false false baseKwFix baseModuleFix baseWsFix
    rfl).2.2.2.2.2.2.1 2 (by decide) (by decide)

theorem LightningNodeData.node_build_full_spec (data : GraphData)
    (tn vn sn pn : Option NodeInput) (ttime vtime stime ptime : Option PyVal)
    (bs0 nw0 : Int) (kw : List (String × PyVal)) (sp : List String) :
    dictGet (LightningNodeData.build data "full" Option.none tn vn sn pn ttime vtime stime
      ptime bs0 nw0 kw sp).1.kwargs "batch_size" = some (PyVal.int 1) ∧
    dictGet (LightningNodeData.build data "full" Option.none tn vn sn pn ttime vtime stime
      ptime bs0 nw0 kw sp).1.kwargs "num_workers" = some (PyVal.int 0) ∧
    dictGet (LightningNodeData.build data "full" Option.none tn vn sn pn ttime vtime stime
      ptime bs0 nw0 kw sp).1.kwargs "pin_memory" = some (PyVal.bool false) ∧
    ("batch_size-reset" ∈ (LightningNodeData.build data "full" Option.none tn vn sn pn ttime
      vtime stime ptime bs0 nw0 kw sp).2 ↔ bs0 ≠ 1) ∧
    ("num_workers-reset" ∈ (LightningNodeData.build data "full" Option.none tn vn sn pn ttime
      vtime stime ptime bs0 nw0 kw sp).2 ↔ nw0 ≠ 0) ∧
    ("pin_memory-reset" ∈ (LightningNodeData.build data "full" Option.none tn vn sn pn ttime
      vtime stime ptime bs0 nw0 kw sp).2 ↔
      (dictGetD kw "pin_memory" (PyVal.bool false)).truthy = true) := by
  unfold LightningNodeData.build
  simp only [eq_self_iff_true, true_and,
    eq_false (show ¬ (("full" : String) = "neighbor") from by decide), if_false,
    Option.isSome_none, eq_false Bool.false_ne_true, if_true]
  refine ⟨?_, ?_, ?_, ?_, ?_, ?_⟩
  · rw [dictGet_set_ne _ _ _ _ (by decide),
      initCore_fst_get_other _ _ (by decide) (by decide) (by decide)]
    by_cases h : bs0 = 1 <;> simp [dictGet, h]
  · rw [dictGet_set_ne _ _ _ _ (by decide),
      initCore_fst_get_other _ _ (by decide) (by decide) (by decide)]
    by_cases h : nw0 = 0 <;> simp [dictGet, h]
  · rw [dictGet_set_self]
  · rw [initCore_snd]
    simp [List.mem_append, mem_singleton_if]
  · rw [initCore_snd]
    simp [List.mem_append, mem_singleton_if]
  · rw [initCore_snd]
    simp [List.mem_append, mem_singleton_if]

theorem LightningLinkData.link_build_full_spec (data : GraphData) (te : PyVal)
    (tlab ttime ve vlab vtime se slab stime : Option PyVal)
    (bs0 nw0 : Int) (kw : List (String × PyVal)) (sp : List String) :
    dictGet (LightningLinkData.build data "full" Option.none te tlab ttime ve vlab vtime
      se slab stime bs0 nw0 kw sp).1.kwargs "batch_size" = some (PyVal.int 1) ∧
    dictGet (LightningLinkData.build data "full" Option.none te tlab ttime ve vlab vtime
      se slab stime bs0 nw0 kw sp).1.kwargs "num_workers" = some (PyVal.int 0) ∧
    dictGet (LightningLinkData.build data "full" Option.none te tlab ttime ve vlab vtime
      se slab stime bs0 nw0 kw sp).1.kwargs "pin_memory" = some (PyVal.bool false) ∧
    ("batch_size-reset" ∈ (LightningLinkData.build data "full" Option.none te tlab ttime ve
      vlab vtime se slab stime bs0 nw0 kw sp).2 ↔ bs0 ≠ 1) ∧
    ("num_workers-reset" ∈ (LightningLinkData.build data "full" Option.none te tlab ttime ve
      vlab vtime se slab stime bs0 nw0 kw sp).2 ↔ nw0 ≠ 0) ∧
    ("pin_memory-reset" ∈ (LightningLinkData.build data "full" Option.none te tlab ttime ve
      vlab vtime se slab stime bs0 nw0 kw sp).2 ↔
      (dictGetD kw "pin_memory" (PyVal.bool false)).truthy = true) := by
  unfold LightningLinkData.build
  simp only [eq_self_iff_true, true_and,
    eq_false (show ¬ ((("full" : String) = "neighbor") ∨ (("full" : String) = "link_neighbor"))
      from by decide), if_false,
    Option.isSome_none, eq_false Bool.false_ne_true, if_true]
  refine ⟨?_, ?_, ?_, ?_, ?_, ?_⟩
  · rw [dictGet_set_ne _ _ _ _ (by decide),
      initCore_fst_get_other _ _ (by decide) (by decide) (by decide)]
    by_cases h : bs0 = 1 <;> simp [dictGet, h]
  · rw [dictGet_set_ne _ _ _ _ (by decide),
      initCore_fst_get_other _ _ (by decide) (by decide) (by decide)]
    by_cases h : nw0 = 0 <;> simp [dictGet, h]
  · rw [dictGet_set_self]
  · rw [initCore_snd]
    simp [List.mem_append, mem_singleton_if]
  · rw [initCore_snd]
    simp [List.mem_append, mem_singleton_if]
  · rw [initCore_snd]
    simp [List.mem_append, mem_singleton_if]

/-- Claim C10 (confirmed): a `LightningNodeData` or `LightningLinkData`
constructed with `loader='full'` and no custom sampler stores
`batch_size=1`, `num_workers=0` and `pin_memory=False` in `self.kwargs`
regardless of the values passed, warning exactly when a passed
`batch_size`/`num_workers` had to be changed and when a truthy
`pin_memory` was passed. -/
theorem C10_full_loader_coercion :
    (∀ (pl : Bool) (data : GraphData) (tn0 : Option NodeInput) (ttime : Option PyVal)
       (vn0 : Option NodeInput) (vtime : Option PyVal) (sn0 : Option NodeInput)
       (stime : Option PyVal) (pn0 : Option NodeInput) (ptime : Option PyVal)
       (bs0 nw0 : Int) (kw : List (String × PyVal)) (sp : List String)
       (m : LightningNodeData) (ws : List String),
      LightningNodeData.init pl data tn0 ttime vn0 vtime sn0 stime pn0 ptime "full"
        Option.none bs0 nw0 kw sp = .ok (m, ws) →
      dictGet m.kwargs "batch_size" = some (PyVal.int 1) ∧
      dictGet m.kwargs "num_workers" = some (PyVal.int 0) ∧
      dictGet m.kwargs "pin_memory" = some (PyVal.bool false) ∧
      ("batch_size-reset" ∈ ws ↔ bs0 ≠ 1) ∧
      ("num_workers-reset" ∈ ws ↔ nw0 ≠ 0) ∧
      ("pin_memory-reset" ∈ ws ↔ (dictGetD kw "pin_memory" (PyVal.bool false)).truthy = true)) ∧
    (∀ (pl : Bool) (data : GraphData) (te0 : Option PyVal) (tlab ttime : Option PyVal)
       (ve : Option PyVal) (vlab vtime : Option PyVal) (se : Option PyVal)
       (slab stime : Option PyVal) (bs0 nw0 : Int) (kw : List (String × PyVal))
       (sp : List String) (m : LightningLinkData) (ws : List String),
      LightningLinkData.init pl data te0 tlab ttime ve vlab vtime se slab stime "full"
        Option.none bs0 nw0 kw sp = .ok (m, ws) →
      dictGet m.kwargs "batch_size" = some (PyVal.int 1) ∧
      dictGet m.kwargs "num_workers" = some (PyVal.int 0) ∧
      dictGet m.kwargs "pin_memory" = some (PyVal.bool false) ∧
      ("batch_size-reset" ∈ ws ↔ bs0 ≠ 1) ∧
      ("num_workers-reset" ∈ ws ↔ nw0 ≠ 0) ∧
      ("pin_memory-reset" ∈ ws ↔ (dictGetD kw "pin_memory" (PyVal.bool false)).truthy = true)) := by
  constructor
  · intro pl data tn0 ttime vn0 vtime sn0 stime pn0 ptime bs0 nw0 kw sp m ws h
    obtain ⟨hpl, tn, vn, sn, pn, h1, h2, h3, h4, hp⟩ :=
      LightningNodeData.node_init_inv _ _ _ _ _ _ _ _ _ _ _ _ _ _ _ _ _ h
    have hp' : (m, ws) = LightningNodeData.build data "full" Option.none tn vn sn pn
        ttime vtime stime ptime bs0 nw0 kw sp := hp
    have hm : m = (LightningNodeData.build data "full" Option.none tn vn sn pn
        ttime vtime stime ptime bs0 nw0 kw sp).1 := congrArg Prod.fst hp'
    have hw : ws = (LightningNodeData.build data "full" Option.none tn vn sn pn
        ttime vtime stime ptime bs0 nw0 kw sp).2 := congrArg Prod.snd hp'
    rw [hm, hw]
    exact LightningNodeData.node_build_full_spec data tn vn sn pn ttime vtime stime ptime
      bs0 nw0 kw sp
  · intro pl data te0 tlab ttime ve vlab vtime se slab stime bs0 nw0 kw sp m ws h
    obtain ⟨hpl, te, hte, hp⟩ :=
      LightningLinkData.link_init_inv _ _ _ _ _ _ _ _ _ _ _ _ _ _ _ _ _ _ h
    have hp' : (m, ws) = LightningLinkData.build data "full" Option.none te tlab ttime
        ve vlab vtime se slab stime bs0 nw0 kw sp := hp
    have hm : m = (LightningLinkData.build data "full" Option.none te tlab ttime
        ve vlab vtime se slab stime bs0 nw0 kw sp).1 := congrArg Prod.fst hp'
    have hw : ws = (LightningLinkData.build data "full" Option.none te tlab ttime
        ve vlab vtime se slab stime bs0 nw0 kw sp).2 := congrArg Prod.snd hp'
    rw [hm, hw]
    exact LightningLinkData.link_build_full_spec data te tlab ttime ve vlab vtime se slab stime
      bs0 nw0 kw sp

/-- The full construction result behind `fullNodeModule`, with its warnings. -/
def fullNodePair : LightningNodeData × List String :=
  match LightningNodeData.init true sampleHomoData Option.none Option.none Option.none
      Option.none Option.none Option.none Option.none Option.none "full" Option.none
      1 0 [] [] with
  | .ok p => p
  | .error _ => default

theorem C10_witness :
    dictGet fullNodePair.1.kwargs "pin_memory" = some (PyVal.bool false) :=
  ((C10_full_loader_coercion.1 true sampleHomoData Option.none Option.none Option.none
    Option.none Option.none Option.none Option.none Option.none 1 0 [] []
    fullNodePair.1 fullNodePair.2 rfl).2.2.1)

/-- Claim C8 (confirmed): no split accessor mutates the module: every
accessor returns the module exactly as it found it (in particular
`self.kwargs` and all stored inputs are unchanged; the val/test/predict
accessors pop `sampler`/`batch_sampler` only from a copy). -/
theorem C8_accessors_do_not_mutate :
    (∀ (m : LightningDataset) (alloc : Nat),
      (m.train_dataloader alloc).2.1 = m ∧
      (m.val_dataloader alloc).2.1 = m ∧
      (m.test_dataloader alloc).2.1 = m) ∧
    (∀ (m : LightningNodeData) (alloc : Nat),
      (m.train_dataloader alloc).2.1 = m ∧
      (m.val_dataloader alloc).2.1 = m ∧
      (m.test_dataloader alloc).2.1 = m ∧
      (m.predict_dataloader alloc).2.1 = m) ∧
    (∀ (m : LightningLinkData) (alloc : Nat),
      (m.train_dataloader alloc).2.1 = m ∧
      (m.val_dataloader alloc).2.1 = m ∧
      (m.test_dataloader alloc).2.1 = m) :=
  ⟨fun _ _ => ⟨rfl, rfl, rfl⟩, fun _ _ => ⟨rfl, rfl, rfl, rfl⟩, fun _ _ => ⟨rfl, rfl, rfl⟩⟩

theorem LightningNodeData.node_acc_fresh (m : LightningNodeData) (inp : Option NodeInput)
    (t i : Option PyVal) (kw : List (String × PyVal)) (a : Nat) (l1 : Loader)
    (h : (m.dataloader inp t i kw a).1 = .ok l1) :
    ∃ l2, (m.dataloader inp t i kw ((m.dataloader inp t i kw a).2)).1 = .ok l2 ∧
      l1.oid ≠ l2.oid ∧ l1.config = l2.config := by
  unfold LightningNodeData.dataloader at h ⊢
  by_cases hf : m.loader = "full"
  · simp only [if_pos hf] at h ⊢
    obtain rfl := (Except.ok.inj h).symm
    exact ⟨_, rfl, ne_of_lt (Nat.lt_succ_self a), rfl⟩
  · cases hns : m.neighbor_sampler with
    | none =>
      rw [if_neg hf, hns] at h
      exact Except.noConfusion h
    | some samp =>
      simp only [if_neg hf] at h ⊢
      rw [hns] at h
      obtain rfl := (Except.ok.inj h).symm
      exact ⟨_, rfl, ne_of_lt (Nat.lt_succ_self a), rfl⟩

theorem LightningLinkData.link_acc_fresh (m : LightningLinkData) (inp : Option PyVal)
    (lab t i : Option PyVal) (kw : List (String × PyVal)) (a : Nat) (l1 : Loader)
    (h : (m.dataloader inp lab t i kw a).1 = .ok l1) :
    ∃ l2, (m.dataloader inp lab t i kw ((m.dataloader inp lab t i kw a).2)).1 = .ok l2 ∧
      l1.oid ≠ l2.oid ∧ l1.config = l2.config := by
  unfold LightningLinkData.dataloader at h ⊢
  by_cases hf : m.loader = "full"
  · simp only [if_pos hf] at h ⊢
    obtain rfl := (Except.ok.inj h).symm
    exact ⟨_, rfl, ne_of_lt (Nat.lt_succ_self a), rfl⟩
  · cases hns : m.neighbor_sampler with
    | none =>
      rw [if_neg hf, hns] at h
      exact Except.noConfusion h
    | some samp =>
      simp only [if_neg hf] at h ⊢
      rw [hns] at h
      obtain rfl := (Except.ok.inj h).symm
      exact ⟨_, rfl, ne_of_lt (Nat.lt_succ_self a), rfl⟩

/-- Claim C4 (corrected): no loader is pre-built at construction time; every
split accessor constructs a fresh loader object on each call that
constructs one. `LightningDataset` accessors always construct: two
successive calls return loaders with identical configuration but distinct
object identities. For `LightningNodeData` and `LightningLinkData`,
whenever an accessor call returns a loader, the immediately following call
to the same accessor returns a distinct loader object with the same
configuration (a call that raises constructs nothing). -/
theorem C4_fresh_loader_per_call :
    (∀ (m : LightningDataset) (alloc : Nat),
      ((m.train_dataloader alloc).1.oid ≠
          ((m.train_dataloader alloc).2.1.train_dataloader
            (m.train_dataloader alloc).2.2).1.oid ∧
        (m.train_dataloader alloc).1.config =
          ((m.train_dataloader alloc).2.1.train_dataloader
            (m.train_dataloader alloc).2.2).1.config) ∧
      ((m.val_dataloader alloc).1.oid ≠
          ((m.val_dataloader alloc).2.1.val_dataloader
            (m.val_dataloader alloc).2.2).1.oid ∧
        (m.val_dataloader alloc).1.config =
          ((m.val_dataloader alloc).2.1.val_dataloader
            (m.val_dataloader alloc).2.2).1.config) ∧
      ((m.test_dataloader alloc).1.oid ≠
          ((m.test_dataloader alloc).2.1.test_dataloader
            (m.test_dataloader alloc).2.2).1.oid ∧
        (m.test_dataloader alloc).1.config =
          ((m.test_dataloader alloc).2.1.test_dataloader
            (m.test_dataloader alloc).2.2).1.config)) ∧
    (∀ (m : LightningNodeData) (alloc : Nat),
      (∀ l1, (m.train_dataloader alloc).1 = .ok l1 →
        ∃ l2, ((m.train_dataloader alloc).2.1.train_dataloader
            (m.train_dataloader alloc).2.2).1 = .ok l2 ∧
          l1.oid ≠ l2.oid ∧ l1.config = l2.config) ∧
      (∀ l1, (m.val_dataloader alloc).1 = .ok l1 →
        ∃ l2, ((m.val_dataloader alloc).2.1.val_dataloader
            (m.val_dataloader alloc).2.2).1 = .ok l2 ∧
          l1.oid ≠ l2.oid ∧ l1.config = l2.config) ∧
      (∀ l1, (m.test_dataloader alloc).1 = .ok l1 →
        ∃ l2, ((m.test_dataloader alloc).2.1.test_dataloader
            (m.test_dataloader alloc).2.2).1 = .ok l2 ∧
          l1.oid ≠ l2.oid ∧ l1.config = l2.config) ∧
      (∀ l1, (m.predict_dataloader alloc).1 = .ok l1 →
        ∃ l2, ((m.predict_dataloader alloc).2.1.predict_dataloader
            (m.predict_dataloader alloc).2.2).1 = .ok l2 ∧
          l1.oid ≠ l2.oid ∧ l1.config = l2.config)) ∧
    (∀ (m : LightningLinkData) (alloc : Nat),
      (∀ l1, (m.train_dataloader alloc).1 = .ok l1 →
        ∃ l2, ((m.train_dataloader alloc).2.1.train_dataloader
            (m.train_dataloader alloc).2.2).1 = .ok l2 ∧
          l1.oid ≠ l2.oid ∧ l1.config = l2.config) ∧
      (∀ l1, (m.val_dataloader alloc).1 = .ok l1 →
        ∃ l2, ((m.val_dataloader alloc).2.1.val_dataloader
            (m.val_dataloader alloc).2.2).1 = .ok l2 ∧
          l1.oid ≠ l2.oid ∧ l1.config = l2.config) ∧
      (∀ l1, (m.test_dataloader alloc).1 = .ok l1 →
        ∃ l2, ((m.test_dataloader alloc).2.1.test_dataloader
            (m.test_dataloader alloc).2.2).1 = .ok l2 ∧
          l1.oid ≠ l2.oid ∧ l1.config = l2.config)) := by
  refine ⟨?_, ?_, ?_⟩
  · intro m alloc
    exact ⟨⟨ne_of_lt (Nat.lt_succ_self alloc), rfl⟩,
      ⟨ne_of_lt (Nat.lt_succ_self alloc), rfl⟩,
      ⟨ne_of_lt (Nat.lt_succ_self alloc), rfl⟩⟩
  · intro m alloc
    refine ⟨?_, ?_, ?_, ?_⟩ <;>
    · intro l1 h
      exact LightningNodeData.node_acc_fresh m _ _ _ _ alloc l1 h
  · intro m alloc
    refine ⟨?_, ?_, ?_⟩ <;>
    · intro l1 h
      exact LightningLinkData.link_acc_fresh m _ _ _ _ _ alloc l1 h

/-- The loader returned by the first `train_dataloader` call on
`fullNodeModule`. -/
def c4FirstLoader : Loader :=
  match (fullNodeModule.train_dataloader 0).1 with
  | .ok l => l
  | .error _ => default

theorem C4_witness :
    ∃ l2, ((fullNodeModule.train_dataloader 0).2.1.train_dataloader
        (fullNodeModule.train_dataloader 0).2.2).1 = .ok l2 ∧
      c4FirstLoader.oid ≠ l2.oid ∧ c4FirstLoader.config = l2.config :=
  (C4_fresh_loader_per_call.2.1 fullNodeModule 0).1 c4FirstLoader rfl

/-- Counterexample to claim C4 as stated: two calls to the same accessor on
the same module return distinct loader objects, not one pre-built loader. -/
theorem C4_counterexample :
    (datasetModule.train_dataloader 0).1 ≠
      ((datasetModule.train_dataloader 0).2.1.train_dataloader
        (datasetModule.train_dataloader 0).2.2).1 := by
  decide

theorem infer_attr_name_contains (d : GraphData) (split name : String)
    (h : infer_attr_name d split = some name) : d.containsAttr name = true := by
  unfold infer_attr_name at h
  split at h
  · rename_i hc
    exact (Option.some.inj h) ▸ hc
  · split at h
    · rename_i hc
      exact (Option.some.inj h) ▸ hc
    · split at h
      · rename_i hc
        exact (Option.some.inj h) ▸ hc
      · exact Option.noConfusion h

theorem hetero_collect_pos (stores : List (String × List (String × PyVal))) (name : String)
    (h : (GraphData.hetero stores).containsAttr name = true) :
    0 < ((GraphData.hetero stores).collect name).length := by
  unfold GraphData.containsAttr at h
  rw [List.any_eq_true] at h
  obtain ⟨s, hs, hk⟩ := h
  unfold dictHasKey at hk
  rw [Option.isSome_iff_exists] at hk
  obtain ⟨v, hv⟩ := hk
  have hmem : (s.1, v) ∈ (GraphData.hetero stores).collect name := by
    unfold GraphData.collect
    exact List.mem_filterMap.mpr ⟨s, hs, by rw [hv]; rfl⟩
  exact List.length_pos.mpr (List.ne_nil_of_mem hmem)

/-- Claim C9 (confirmed, container semantics modelled from the spec):
`infer_input_nodes` picks `{split}_mask`, else `{split}_idx`, else
`{split}_index`, else returns `None`; on a `Data` object it returns the
chosen attribute's value; on a `HeteroData` object it raises `ValueError`
exactly when more than one type carries the chosen attribute and otherwise
returns the single `(type, value)` pair. `LightningNodeData.__init__`
applies it per split when inputs are not given, falling back from `val` to
`valid` for the validation split. -/
theorem C9_infer_input_nodes_precedence :
    (∀ (d : GraphData) (split : String),
      d.containsAttr (split ++ "_mask") = true →
      infer_attr_name d split = some (split ++ "_mask")) ∧
    (∀ (d : GraphData) (split : String),
      d.containsAttr (split ++ "_mask") = false →
      d.containsAttr (split ++ "_idx") = true →
      infer_attr_name d split = some (split ++ "_idx")) ∧
    (∀ (d : GraphData) (split : String),
      d.containsAttr (split ++ "_mask") = false →
      d.containsAttr (split ++ "_idx") = false →
      d.containsAttr (split ++ "_index") = true →
      infer_attr_name d split = some (split ++ "_index")) ∧
    (∀ (d : GraphData) (split : String),
      d.containsAttr (split ++ "_mask") = false →
      d.containsAttr (split ++ "_idx") = false →
      d.containsAttr (split ++ "_index") = false →
      infer_attr_name d split = Option.none) ∧
    (∀ (d : GraphData) (split : String),
      infer_attr_name d split = Option.none →
      infer_input_nodes d split = .ok Option.none) ∧
    (∀ (attrs : List (String × PyVal)) (split name : String),
      infer_attr_name (GraphData.homo attrs) split = some name →
      ∃ v, dictGet attrs name = some v ∧
        infer_input_nodes (GraphData.homo attrs) split = .ok (some (NodeInput.plain v))) ∧
    (∀ (stores : List (String × List (String × PyVal))) (split name : String),
      infer_attr_name (GraphData.hetero stores) split = some name →
      ((infer_input_nodes (GraphData.hetero stores) split = .error .valueError ↔
        1 < ((GraphData.hetero stores).collect name).length) ∧
      (∀ (t : String) (v : PyVal), (GraphData.hetero stores).collect name = [(t, v)] →
        infer_input_nodes (GraphData.hetero stores) split =
          .ok (some (NodeInput.typed t v))))) ∧
    (∀ (pl : Bool) (data : GraphData) (ttime vtime stime ptime : Option PyVal)
       (loader0 : String) (ns : Option PyVal) (bs nw : Int) (kw : List (String × PyVal))
       (sp : List String) (m : LightningNodeData) (ws : List String),
      LightningNodeData.init pl data Option.none ttime Option.none vtime Option.none stime
        Option.none ptime loader0 ns bs nw kw sp = .ok (m, ws) →
      (∀ r, infer_input_nodes data "train" = .ok r → m.input_train_nodes = r) ∧
      (∀ v, infer_input_nodes data "val" = .ok (some v) → m.input_val_nodes = some v) ∧
      (∀ r, infer_input_nodes data "val" = .ok Option.none →
        infer_input_nodes data "valid" = .ok r → m.input_val_nodes = r) ∧
      (∀ r, infer_input_nodes data "test" = .ok r → m.input_test_nodes = r) ∧
      (∀ r, infer_input_nodes data "pred" = .ok r → m.input_pred_nodes = r)) := by
  refine ⟨?_, ?_, ?_, ?_, ?_, ?_, ?_, ?_⟩
  · intro d split h
    unfold infer_attr_name
    rw [if_pos h]
  · intro d split h1 h2
    unfold infer_attr_name
    rw [if_neg (fun hc => by rw [h1] at hc; exact Bool.noConfusion hc), if_pos h2]
  · intro d split h1 h2 h3
    unfold infer_attr_name
    rw [if_neg (fun hc => by rw [h1] at hc; exact Bool.noConfusion hc),
      if_neg (fun hc => by rw [h2] at hc; exact Bool.noConfusion hc), if_pos h3]
  · intro d split h1 h2 h3
    unfold infer_attr_name
    rw [if_neg (fun hc => by rw [h1] at hc; exact Bool.noConfusion hc),
      if_neg (fun hc => by rw [h2] at hc; exact Bool.noConfusion hc),
      if_neg (fun hc => by rw [h3] at hc; exact Bool.noConfusion hc)]
  · intro d split h
    unfold infer_input_nodes
    rw [h]
  · intro attrs split name h
    have hc : dictHasKey attrs name = true := infer_attr_name_contains _ _ _ h
    unfold dictHasKey at hc
    obtain ⟨v, hv⟩ := Option.isSome_iff_exists.mp hc
    refine ⟨v, hv, ?_⟩
    simp only [infer_input_nodes, h]
    rw [hv]
    rfl
  · intro stores split name h
    have hpos := hetero_collect_pos stores name (infer_attr_name_contains _ _ _ h)
    constructor
    · simp only [infer_input_nodes, h]
      by_cases hlen : ((GraphData.hetero stores).collect name).length = 1
      · rw [if_neg (not_not_intro hlen)]
        exact iff_of_false (fun hcontr => Except.noConfusion hcontr)
          (fun hlt => Nat.lt_irrefl 1 (hlen ▸ hlt))
      · rw [if_pos hlen]
        exact iff_of_true rfl (by omega)
    · intro t v hcol
      simp only [infer_input_nodes, h]
      rw [hcol]
      simp
  · intro pl data ttime vtime stime ptime loader0 ns bs nw kw sp m ws h
    obtain ⟨hpl, tn, vn, sn, pn, h1, h2, h3, h4, hp⟩ :=
      LightningNodeData.node_init_inv _ _ _ _ _ _ _ _ _ _ _ _ _ _ _ _ _ h
    have hm : m = (LightningNodeData.build data
        (if ns.isSome then "custom" else loader0) ns tn vn sn pn ttime vtime stime ptime
        bs nw kw sp).1 := congrArg Prod.fst hp
    have htn : m.input_train_nodes = tn := by rw [hm]; rfl
    have hvn : m.input_val_nodes = vn := by rw [hm]; rfl
    have hsn : m.input_test_nodes = sn := by rw [hm]; rfl
    have hpn : m.input_pred_nodes = pn := by rw [hm]; rfl
    have h1' : infer_input_nodes data "train" = .ok tn := h1
    have h3' : infer_input_nodes data "test" = .ok sn := h3
    have h4' : infer_input_nodes data "pred" = .ok pn := h4
    refine ⟨?_, ?_, ?_, ?_, ?_⟩
    · intro r hr
      exact htn.trans (Except.ok.inj (h1'.symm.trans hr))
    · intro v hval
      simp only [resolveValInput, hval] at h2
      exact hvn.trans (Except.ok.inj h2).symm
    · intro r hvalNone hvalid
      simp only [resolveValInput, hvalNone] at h2
      exact hvn.trans (Except.ok.inj (h2.symm.trans hvalid))
    · intro r hr
      exact hsn.trans (Except.ok.inj (h3'.symm.trans hr))
    · intro r hr
      exact hpn.trans (Except.ok.inj (h4'.symm.trans hr))

/-- A heterogeneous graph where exactly one node type carries `train_mask`. -/
def heteroFix : GraphData :=
  GraphData.hetero [("paper", [("train_mask", PyVal.obj 2)]), ("author", [("x", PyVal.obj 3)])]

theorem C9_witness :
    infer_input_nodes heteroFix "train" = .ok (some (NodeInput.typed "paper" (PyVal.obj 2))) :=
  ((C9_infer_input_nodes_precedence.2.2.2.2.2.2.1
    [("paper", [("train_mask", PyVal.obj 2)]), ("author", [("x", PyVal.obj 3)])]
    "train" "train_mask" rfl).2 "paper" (PyVal.obj 2) rfl)
